import Mathlib

set_option linter.unnecessarySeqFocus false

/-!
Shallow embedding of the HyperDbg i8042 keyboard subsystem
(src/hyperdbg/keyboard.c) and proofs of the specification claims.

Hardware port I/O is modelled by an environment of read streams
(`PortEnv`) plus a cursor state (`PortState`) recording how many status
reads and data reads have been consumed and which port writes have been
performed.  Machine integers (UCHAR, ULONG) are modelled as `Nat` with
explicit wrap-around where the C code can overflow.
-/

namespace HyperDbgKeyboard

/-! ### Constants from keyboard.c -/

def POLL_STATUS_ITERATIONS : Nat := 12000

def KEYB_STATUS_OBUFFER_FULL : Nat := 1
def KEYB_STATUS_IBUFFER_FULL : Nat := 2
def KEYB_STATUS_TRANSMIT_TIMEOUT : Nat := 32
def KEYB_STATUS_PARITY_ERROR : Nat := 128

def KEYB_COMMAND_WRITE_OUTPUT : Nat := 0xd2
def KEYB_COMMAND_DISABLE_KEYBOARD : Nat := 0xad
def KEYB_COMMAND_ENABLE_KEYBOARD : Nat := 0xae
def KEYB_COMMAND_DISABLE_MOUSE : Nat := 0xa7
def KEYB_COMMAND_ENABLE_MOUSE : Nat := 0xa8

def SCANCODE_RELEASE_FLAG : Nat := 0x80

/-- Macro IS_SCANCODE_RELEASE(c) = (c & 0x80). -/
def IS_SCANCODE_RELEASE (c : Nat) : Bool := c &&& SCANCODE_RELEASE_FLAG != 0

/-- ULONG is a 32-bit unsigned integer; its arithmetic wraps modulo 2^32. -/
def ULONG_MOD : Nat := 2 ^ 32

/-! ### Keyboard modifier state (global `keyboard_status`) -/

structure KEYBOARD_STATUS where
  lctrl : Bool
  lshift : Bool
  rshift : Bool
  lalt : Bool
deriving DecidableEq, Repr

/-- The C global `KEYBOARD_STATUS keyboard_status;` is a static object,
zero-initialized at image load time: all four latches start false. -/
def keyboard_status_zero_init : KEYBOARD_STATUS :=
  { lctrl := false, lshift := false, rshift := false, lalt := false }

/-! ### Port I/O model -/

/-- The two i8042 port addresses used for writes: the command/status port
(64h, `KEYB_REGISTER_COMMAND`/`KEYB_REGISTER_STATUS`) and the data port
(60h, `KEYB_REGISTER_DATA`).  The addresses come from keyboard.h. -/
inductive PortAddr where
  | command : PortAddr
  | data : PortAddr
deriving DecidableEq, Repr

def KEYB_REGISTER_COMMAND : PortAddr := PortAddr.command
def KEYB_REGISTER_DATA : PortAddr := PortAddr.data

/-- Hardware environment: the byte returned by the i-th read of the
status register, and by the j-th read of the data register. -/
structure PortEnv where
  statusAt : Nat → Nat
  dataAt : Nat → Nat

/-- Port I/O cursor: how many status reads and data reads have happened,
and the sequence of (address, byte) port writes performed so far. -/
structure PortState where
  sIdx : Nat
  dIdx : Nat
  writes : List (PortAddr × Nat)
deriving DecidableEq, Repr

def PortState.init : PortState := { sIdx := 0, dIdx := 0, writes := [] }

/-! ### i8042ReadKeyboardData -/

/-- One-shot hardware read attempt (keyboard.c lines 90-109): read the
status register; if output-buffer-full, read the data register; succeed
(`some (byte, isMouse)`) only if the parity-error bit is clear, taking
the transmit-timeout bit as the mouse-origin flag.  `none` models
STATUS_UNSUCCESSFUL. -/
def i8042ReadKeyboardData (env : PortEnv) (ps : PortState) :
    Option (Nat × Bool) × PortState :=
  let port_status := env.statusAt ps.sIdx
  let ps1 : PortState := { ps with sIdx := ps.sIdx + 1 }
  if port_status &&& KEYB_STATUS_OBUFFER_FULL ≠ 0 then
    let c := env.dataAt ps1.dIdx
    let ps2 : PortState := { ps1 with dIdx := ps1.dIdx + 1 }
    if port_status &&& KEYB_STATUS_PARITY_ERROR = 0 then
      (some (c, port_status &&& KEYB_STATUS_TRANSMIT_TIMEOUT != 0), ps2)
    else
      (none, ps2)
  else
    (none, ps1)

/-! ### i8042WriteKeyboardData -/

/-- The busy-wait loop of i8042WriteKeyboardData (keyboard.c lines
115-119): `while ((IBF & READ_STATUS) && (counter--)) stall;`.
Each condition evaluation reads the status register once.  When the
input-buffer-full bit reads clear the loop exits with `counter`
untouched (short-circuit, the decrement is not evaluated); when
`counter--` evaluates at 0 the loop exits and the post-decrement wraps
the ULONG to 2^32 - 1.  Returns the final value of `counter` and the
port state after the loop. -/
def writeWaitLoop (env : PortEnv) : Nat → PortState → Nat × PortState
  | counter, ps =>
    let s := env.statusAt ps.sIdx
    let ps1 : PortState := { ps with sIdx := ps.sIdx + 1 }
    if KEYB_STATUS_IBUFFER_FULL &&& s = 0 then
      (counter, ps1)
    else
      match counter with
      | 0 => (ULONG_MOD - 1, ps1)
      | n + 1 => writeWaitLoop env n ps1

/-- i8042WriteKeyboardData (keyboard.c lines 111-127): run the busy-wait
loop starting from counter = POLL_STATUS_ITERATIONS; then
`if (counter) { WRITE_PORT_UCHAR(addr, data); return TRUE; } return FALSE;`. -/
def i8042WriteKeyboardData (env : PortEnv) (ps : PortState) (addr : PortAddr)
    (data : Nat) : Bool × PortState :=
  let r := writeWaitLoop env POLL_STATUS_ITERATIONS ps
  if r.1 ≠ 0 then
    (true, { r.2 with writes := r.2.writes ++ [(addr, data)] })
  else
    (false, r.2)

/-! ### KeyboardReadKeystroke -/

/-- The polling loop of KeyboardReadKeystroke (keyboard.c lines
136-149): while counter is nonzero, read-and-discard the status
register, attempt i8042ReadKeyboardData, break on success, otherwise
stall and decrement.  Returns the attempt result, the port state, and
the final value of `counter` (nonzero exactly when the loop broke on a
successful read). -/
def readPollLoop (env : PortEnv) : Nat → PortState → Option (Nat × Bool) × PortState × Nat
  | 0, ps => (none, ps, 0)
  | n + 1, ps =>
    let ps0 : PortState := { ps with sIdx := ps.sIdx + 1 }
    let r := i8042ReadKeyboardData env ps0
    match r.1 with
    | some v => (some v, r.2, n + 1)
    | none => readPollLoop env n r.2

/-- KeyboardReadKeystroke (keyboard.c lines 130-166).  `none` models the
STATUS_UNSUCCESSFUL timeout return; `some (scancode, isMouse)` models
STATUS_SUCCESS with the two out-parameters.  When `unget` is truthy the
scancode is echoed back by four fire-and-forget i8042WriteKeyboardData
calls whose boolean results are discarded. -/
def KeyboardReadKeystroke (env : PortEnv) (ps : PortState) (unget : Bool) :
    Option (Nat × Bool) × PortState :=
  let r := readPollLoop env POLL_STATUS_ITERATIONS ps
  if r.2.2 = 0 then
    (none, r.2.1)
  else
    match r.1 with
    | none => (none, r.2.1)
    | some (scancode, isMouse) =>
      let ps2 :=
        if unget then
          let a := i8042WriteKeyboardData env r.2.1 KEYB_REGISTER_COMMAND KEYB_COMMAND_DISABLE_KEYBOARD
          let b := i8042WriteKeyboardData env a.2 KEYB_REGISTER_COMMAND KEYB_COMMAND_WRITE_OUTPUT
          let c := i8042WriteKeyboardData env b.2 KEYB_REGISTER_DATA scancode
          let d := i8042WriteKeyboardData env c.2 KEYB_REGISTER_COMMAND KEYB_COMMAND_ENABLE_KEYBOARD
          d.2
        else r.2.1
      (some (scancode, isMouse), ps2)

/-! ### Scancode translation -/

/-- Modelled from the spec: `vmm_toupper` is the external case-fold
utility from vmmstring.h, which is not under src/.  Per the spec (§4.4
rule 6 and §8) translation returns "the uppercase form" of a lowercase
letter, i.e. subtracts 0x20 on the ASCII range 0x61-0x7a. -/
def vmm_toupper (x : Nat) : Nat :=
  if 0x61 ≤ x ∧ x ≤ 0x7a then x - 0x20 else x

/-- The inner `switch (scancodes_map[c])` of KeyboardScancodeToKeycode
(keyboard.c lines 228-249): signs above the digits, us-std keymap.
`none` models falling out of the switch without hitting a case. -/
def shiftNumber (x : Nat) : Option Nat :=
  if x = 0x31 then some 0x21
  else if x = 0x32 then some 0x40
  else if x = 0x33 then some 0x23
  else if x = 0x34 then some 0x24
  else if x = 0x35 then some 0x25
  else if x = 0x36 then some 0x5e
  else if x = 0x37 then some 0x26
  else if x = 0x38 then some 0x2a
  else if x = 0x39 then some 0x28
  else if x = 0x30 then some 0x29
  else none

/-- KeyboardScancodeToKeycode (keyboard.c lines 170-256).  The external
read-only table `scancodes_map` (scancode.c, not under src/) is passed
as a parameter; `c` is a UCHAR, so `c & ~SCANCODE_RELEASE_FLAG`
equals `c &&& 0x7f`.  Returns the keycode and the updated global
`keyboard_status`. -/
def KeyboardScancodeToKeycode (scancodes_map : Nat → Nat)
    (st : KEYBOARD_STATUS) (c : Nat) : Nat × KEYBOARD_STATUS :=
  let base := c &&& 0x7f
  if base = 0x1d then
    (0, { st with lctrl := if IS_SCANCODE_RELEASE c then false else true })
  else if base = 0x2a then
    (0, { st with lshift := if IS_SCANCODE_RELEASE c then false else true })
  else if base = 0x36 then
    (0, { st with rshift := if IS_SCANCODE_RELEASE c then false else true })
  else if base = 0x38 then
    (0, { st with lalt := if IS_SCANCODE_RELEASE c then false else true })
  else if IS_SCANCODE_RELEASE c then
    (0, st)
  else if c = 0x00 ∨ c = 0xaa ∨ c = 0xee ∨ c = 0xfa ∨ c = 0xfc ∨ c = 0xfd ∨
          c = 0xfe ∨ c = 0xff then
    (0, st)
  else
    let m := scancodes_map c
    let sub := if (st.lshift || st.rshift) = true ∧ 0x2f < m ∧ m < 0x3a
               then shiftNumber m else none
    match sub with
    | some r => (r, st)
    | none =>
      if (st.lshift || st.rshift) = true ∧ 0x60 < m ∧ m < 0x7b then
        (vmm_toupper m, st)
      else
        (m, st)

/-- Which stage of KeyboardScancodeToKeycode produced the return value:
the modifier switch, the release-bit early return, the control/ack byte
switch, the shifted-digit switch, the shifted-letter upcase, or the
plain table lookup. -/
inductive TransRule where
  | modifier : TransRule
  | releaseIgnore : TransRule
  | controlByte : TransRule
  | shiftDigit : TransRule
  | shiftLetter : TransRule
  | plain : TransRule
deriving DecidableEq, Repr

/-- KeyboardScancodeToKeycode instrumented with the stage (`TransRule`)
that produced the result; identical control flow to the plain
definition. -/
def KeyboardScancodeToKeycodeR (scancodes_map : Nat → Nat)
    (st : KEYBOARD_STATUS) (c : Nat) : Nat × KEYBOARD_STATUS × TransRule :=
  let base := c &&& 0x7f
  if base = 0x1d then
    (0, { st with lctrl := if IS_SCANCODE_RELEASE c then false else true }, TransRule.modifier)
  else if base = 0x2a then
    (0, { st with lshift := if IS_SCANCODE_RELEASE c then false else true }, TransRule.modifier)
  else if base = 0x36 then
    (0, { st with rshift := if IS_SCANCODE_RELEASE c then false else true }, TransRule.modifier)
  else if base = 0x38 then
    (0, { st with lalt := if IS_SCANCODE_RELEASE c then false else true }, TransRule.modifier)
  else if IS_SCANCODE_RELEASE c then
    (0, st, TransRule.releaseIgnore)
  else if c = 0x00 ∨ c = 0xaa ∨ c = 0xee ∨ c = 0xfa ∨ c = 0xfc ∨ c = 0xfd ∨
          c = 0xfe ∨ c = 0xff then
    (0, st, TransRule.controlByte)
  else
    let m := scancodes_map c
    let sub := if (st.lshift || st.rshift) = true ∧ 0x2f < m ∧ m < 0x3a
               then shiftNumber m else none
    match sub with
    | some r => (r, st, TransRule.shiftDigit)
    | none =>
      if (st.lshift || st.rshift) = true ∧ 0x60 < m ∧ m < 0x7b then
        (vmm_toupper m, st, TransRule.shiftLetter)
      else
        (m, st, TransRule.plain)

/-! ### KeyboardSetMouse and KeyboardInit -/

/-- NTSTATUS outcomes used by this file. -/
inductive NTSTATUS where
  | STATUS_SUCCESS : NTSTATUS
  | STATUS_UNSUCCESSFUL : NTSTATUS
deriving DecidableEq, Repr

/-- KeyboardSetMouse (keyboard.c lines 258-267): send the enable or
disable mouse command through i8042WriteKeyboardData, discard its
boolean result, and return STATUS_SUCCESS. -/
def KeyboardSetMouse (env : PortEnv) (ps : PortState) (enabled : Bool) :
    NTSTATUS × PortState :=
  let cmd := if enabled then KEYB_COMMAND_ENABLE_MOUSE else KEYB_COMMAND_DISABLE_MOUSE
  let r := i8042WriteKeyboardData env ps KEYB_REGISTER_COMMAND cmd
  (NTSTATUS.STATUS_SUCCESS, r.2)

/-- Global state touched by KeyboardInit: the exported modifier latches
and whether the external scancode table has been loaded. -/
structure KbdGlobals where
  keyboard_status : KEYBOARD_STATUS
  mapLoaded : Bool
deriving DecidableEq, Repr

/-- Modelled from the spec: `init_scancodes_map` (scancode.c, not under
src/) "loads/initializes the external scancode map".  Per the spec's
data-model invariant (§3) the modifier latches are "mutated only by
scancode bytes 0x1d/0x2a/0x36/0x38 ... never mutated by any other code
path", so loading the table does not touch `keyboard_status`. -/
def init_scancodes_map (g : KbdGlobals) : KbdGlobals :=
  { g with mapLoaded := true }

/-- KeyboardInit (keyboard.c lines 269-274): call init_scancodes_map()
and return STATUS_SUCCESS.  It contains no assignment to
`keyboard_status`. -/
def KeyboardInit (g : KbdGlobals) : NTSTATUS × KbdGlobals :=
  (NTSTATUS.STATUS_SUCCESS, init_scancodes_map g)

/-! ### Auxiliary definitions used by the claim statements -/

/-- A hardware read attempt that decodes the i-th status read succeeds
exactly when that status byte has output-buffer-full set and
parity-error clear. -/
def attemptOK (env : PortEnv) (i : Nat) : Prop :=
  env.statusAt i &&& KEYB_STATUS_OBUFFER_FULL ≠ 0 ∧
  env.statusAt i &&& KEYB_STATUS_PARITY_ERROR = 0

instance attemptOK.dec (env : PortEnv) (i : Nat) : Decidable (attemptOK env i) := by
  unfold attemptOK
  infer_instance

/-- Number of data-register reads consumed by the first k failed polling
passes of KeyboardReadKeystroke when the status-read cursor starts at
s0: a failed pass still reads the data register when its decoded status
byte had output-buffer-full set (the parity-error case). -/
def failedDataReads (env : PortEnv) : Nat → Nat → Nat
  | _, 0 => 0
  | s0, k + 1 =>
    (if env.statusAt (s0 + 1) &&& KEYB_STATUS_OBUFFER_FULL ≠ 0 then 1 else 0) +
      failedDataReads env (s0 + 2) k

/-- An environment whose status register always reads with the
input-buffer-full bit set: the write busy-wait never sees the buffer
clear. -/
def alwaysBusyEnv : PortEnv :=
  { statusAt := fun _ => KEYB_STATUS_IBUFFER_FULL, dataAt := fun _ => 0 }

/-- An environment whose status register always reads 0x01
(output-buffer-full set, parity clear, mouse bit clear) and whose data
register always yields 0x1c. -/
def pollReadyEnv : PortEnv :=
  { statusAt := fun _ => KEYB_STATUS_OBUFFER_FULL, dataAt := fun _ => 0x1c }

/-- The latch that scancode base `m` controls (only meaningful for
m ∈ {0x1d, 0x2a, 0x36, 0x38}). -/
def modifierLatch (m : Nat) (st : KEYBOARD_STATUS) : Bool :=
  if m = 0x1d then st.lctrl
  else if m = 0x2a then st.lshift
  else if m = 0x36 then st.rshift
  else st.lalt

/-- The digit-row substitution exactly as the spec's claim words it:
the fixed correspondence 1↔!, 2↔@, 3↔#, 4↔$, 5↔%, 6↔^, 7↔&, 8↔*, 9↔(,
0↔), written independently of the source's switch so the two can be
compared. -/
def shiftedDigitSpec (x : Nat) : Nat :=
  if x = 0x31 then 0x21
  else if x = 0x32 then 0x40
  else if x = 0x33 then 0x23
  else if x = 0x34 then 0x24
  else if x = 0x35 then 0x25
  else if x = 0x36 then 0x5e
  else if x = 0x37 then 0x26
  else if x = 0x38 then 0x2a
  else if x = 0x39 then 0x28
  else if x = 0x30 then 0x29
  else x

/-- A state reached from the zero-initialized latches by translating the
left-shift press scancode 0x2a, with the scancode map loaded. -/
def latchedGlobals : KbdGlobals :=
  { keyboard_status :=
      (KeyboardScancodeToKeycode (fun _ => 0) keyboard_status_zero_init 0x2a).2,
    mapLoaded := true }

/-- A scancode map sending byte 0x00 into the digit row (to 0x31, the
character 1); every other byte is unmapped. -/
def zeroToDigitMap : Nat → Nat := fun c => if c = 0 then 0x31 else 0

/-- The all-false latch state with left shift held. -/
def lshiftHeld : KEYBOARD_STATUS :=
  { lctrl := false, lshift := true, rshift := false, lalt := false }

/-! ### Helper lemmas about the translator -/

lemma keycodeR_agrees (scancodes_map : Nat → Nat) (st : KEYBOARD_STATUS) (c : Nat) :
    KeyboardScancodeToKeycode scancodes_map st c =
      ((KeyboardScancodeToKeycodeR scancodes_map st c).1,
       (KeyboardScancodeToKeycodeR scancodes_map st c).2.1) := by
  unfold KeyboardScancodeToKeycode KeyboardScancodeToKeycodeR
  by_cases h1 : c &&& 0x7f = 0x1d
  · simp [h1]
  by_cases h2 : c &&& 0x7f = 0x2a
  · simp [h1, h2]
  by_cases h3 : c &&& 0x7f = 0x36
  · simp [h1, h2, h3]
  by_cases h4 : c &&& 0x7f = 0x38
  · simp [h1, h2, h3, h4]
  by_cases hr : IS_SCANCODE_RELEASE c = true
  · simp [h1, h2, h3, h4, hr]
  by_cases hctl : c = 0x00 ∨ c = 0xaa ∨ c = 0xee ∨ c = 0xfa ∨ c = 0xfc ∨
      c = 0xfd ∨ c = 0xfe ∨ c = 0xff
  · simp [h1, h2, h3, h4, hr, hctl]
  by_cases hP : (st.lshift || st.rshift) = true ∧ 0x2f < scancodes_map c ∧
      scancodes_map c < 0x3a
  · simp only [h1, h2, h3, h4, hr, hctl, hP, Bool.not_eq_true, if_false, if_true]
    cases hs : shiftNumber (scancodes_map c) <;> simp [hs] <;> split_ifs <;> rfl
  · simp only [h1, h2, h3, h4, hr, hctl, hP, Bool.not_eq_true, if_false]
    split_ifs <;> rfl

lemma keycode_snd_of_not_modifier (scancodes_map : Nat → Nat)
    (st : KEYBOARD_STATUS) (c : Nat)
    (h : ¬(c &&& 0x7f = 0x1d ∨ c &&& 0x7f = 0x2a ∨ c &&& 0x7f = 0x36 ∨ c &&& 0x7f = 0x38)) :
    (KeyboardScancodeToKeycode scancodes_map st c).2 = st := by
  push_neg at h
  obtain ⟨h1, h2, h3, h4⟩ := h
  unfold KeyboardScancodeToKeycode
  simp only [h1, h2, h3, h4, if_false]
  repeat' split
  all_goals rfl

/-! ### Claim theorems -/

/-- C2 counterexample: the claim "every invocation of Init sets all four
modifier latches to false" is false: invoking KeyboardInit on a state in
which left shift is latched (reached by translating the 0x2a press)
leaves the latch set. -/
theorem claim_C2_counterexample :
    (KeyboardInit latchedGlobals).2.keyboard_status.lshift ≠ false := by
  decide

/-- C2 (amended): KeyboardInit loads the scancode map and returns
STATUS_SUCCESS; it leaves the modifier latches unchanged (they are
all-false initially only through static zero-initialization of the
global), so re-invoking Init does not reset modifier tracking; Init is
idempotent. -/
theorem claim_C2_init_no_latch_reset :
    ∀ g : KbdGlobals,
      KeyboardInit g =
        (NTSTATUS.STATUS_SUCCESS,
         { keyboard_status := g.keyboard_status, mapLoaded := true }) ∧
      (KeyboardInit (KeyboardInit g).2).2 = (KeyboardInit g).2 ∧
      (KeyboardInit g).2.keyboard_status = g.keyboard_status := by
  intro g
  exact ⟨rfl, rfl, rfl⟩

/-- C3: a byte whose base code is a modifier scancode sets exactly the
corresponding latch to true on press and false on release and returns 0;
in particular press then release of any modifier byte leaves its latch
false with both calls returning 0. -/
theorem claim_C3_modifier_latches :
    (∀ (scancodes_map : Nat → Nat) (st : KEYBOARD_STATUS) (c : Nat), c < 256 →
      ((c &&& 0x7f = 0x1d →
          KeyboardScancodeToKeycode scancodes_map st c =
            (0, { st with lctrl := !IS_SCANCODE_RELEASE c })) ∧
       (c &&& 0x7f = 0x2a →
          KeyboardScancodeToKeycode scancodes_map st c =
            (0, { st with lshift := !IS_SCANCODE_RELEASE c })) ∧
       (c &&& 0x7f = 0x36 →
          KeyboardScancodeToKeycode scancodes_map st c =
            (0, { st with rshift := !IS_SCANCODE_RELEASE c })) ∧
       (c &&& 0x7f = 0x38 →
          KeyboardScancodeToKeycode scancodes_map st c =
            (0, { st with lalt := !IS_SCANCODE_RELEASE c })))) ∧
    (∀ (scancodes_map : Nat → Nat) (st : KEYBOARD_STATUS) (m : Nat),
      (m = 0x1d ∨ m = 0x2a ∨ m = 0x36 ∨ m = 0x38) →
      (KeyboardScancodeToKeycode scancodes_map st m).1 = 0 ∧
      (KeyboardScancodeToKeycode scancodes_map
        (KeyboardScancodeToKeycode scancodes_map st m).2 (m + 0x80)).1 = 0 ∧
      modifierLatch m (KeyboardScancodeToKeycode scancodes_map
        (KeyboardScancodeToKeycode scancodes_map st m).2 (m + 0x80)).2 = false) := by
  constructor
  · intro scancodes_map st c _
    refine ⟨?_, ?_, ?_, ?_⟩ <;> intro h <;>
      · by_cases hr : IS_SCANCODE_RELEASE c = true <;>
          simp [KeyboardScancodeToKeycode, h, hr]
  · intro scancodes_map st m hm
    rcases hm with rfl | rfl | rfl | rfl <;> exact ⟨rfl, rfl, rfl⟩

/-- C3 witness: pressing left shift (0x2a) from the zero state sets the
left-shift latch and returns 0; press then release of right shift
(0x36) returns 0 twice and leaves the right-shift latch false. -/
theorem claim_C3_witness :
    KeyboardScancodeToKeycode (fun _ => 0) keyboard_status_zero_init 0x2a =
      (0, { keyboard_status_zero_init with lshift := true }) ∧
    (KeyboardScancodeToKeycode (fun _ => 0)
      (KeyboardScancodeToKeycode (fun _ => 0) keyboard_status_zero_init 0x36).2
      (0x36 + 0x80)).1 = 0 ∧
    modifierLatch 0x36 (KeyboardScancodeToKeycode (fun _ => 0)
      (KeyboardScancodeToKeycode (fun _ => 0) keyboard_status_zero_init 0x36).2
      (0x36 + 0x80)).2 = false := by
  refine ⟨?_, ?_, ?_⟩
  · have h := ((claim_C3_modifier_latches.1 (fun _ => 0) keyboard_status_zero_init 0x2a
      (by decide)).2.1) (by decide)
    simpa using h
  · exact ((claim_C3_modifier_latches.2 (fun _ => 0) keyboard_status_zero_init 0x36
      (by decide)).2.1)
  · exact ((claim_C3_modifier_latches.2 (fun _ => 0) keyboard_status_zero_init 0x36
      (by decide)).2.2)

/-- C4: a byte whose base code is outside the modifier set leaves all
four latches unchanged; with the release bit set it moreover
returns 0. -/
theorem claim_C4_frame :
    ∀ (scancodes_map : Nat → Nat) (st : KEYBOARD_STATUS) (c : Nat), c < 256 →
      ¬(c &&& 0x7f = 0x1d ∨ c &&& 0x7f = 0x2a ∨ c &&& 0x7f = 0x36 ∨ c &&& 0x7f = 0x38) →
      (KeyboardScancodeToKeycode scancodes_map st c).2 = st ∧
      (IS_SCANCODE_RELEASE c = true →
        KeyboardScancodeToKeycode scancodes_map st c = (0, st)) := by
  intro scancodes_map st c _ h
  refine ⟨keycode_snd_of_not_modifier scancodes_map st c h, ?_⟩
  intro hr
  push_neg at h
  obtain ⟨h1, h2, h3, h4⟩ := h
  unfold KeyboardScancodeToKeycode
  simp [h1, h2, h3, h4, hr]

/-- C4 witness: the released byte 0xc8 (base 0x48, outside the modifier
set) returns 0 and leaves the left-shift-held latch state unchanged. -/
theorem claim_C4_witness :
    (KeyboardScancodeToKeycode (fun _ => 0) lshiftHeld 0xc8).2 = lshiftHeld ∧
    KeyboardScancodeToKeycode (fun _ => 0) lshiftHeld 0xc8 = (0, lshiftHeld) := by
  have h := claim_C4_frame (fun _ => 0) lshiftHeld 0xc8 (by decide) (by decide)
  exact ⟨h.1, h.2 (by decide)⟩

/-- C7: every controller status/ack/error byte in
{0x00, 0xaa, 0xee, 0xfa, 0xfc, 0xfd, 0xfe, 0xff} translates to 0 from
every latch state. -/
theorem claim_C7_control_bytes :
    ∀ (scancodes_map : Nat → Nat) (st : KEYBOARD_STATUS) (c : Nat),
      (c = 0x00 ∨ c = 0xaa ∨ c = 0xee ∨ c = 0xfa ∨ c = 0xfc ∨ c = 0xfd ∨
       c = 0xfe ∨ c = 0xff) →
      (KeyboardScancodeToKeycode scancodes_map st c).1 = 0 := by
  intro scancodes_map st c h
  rcases h with rfl | rfl | rfl | rfl | rfl | rfl | rfl | rfl <;> rfl

/-- C7 witness: byte 0xee translates to 0 from the left-shift-held
state. -/
theorem claim_C7_witness :
    (KeyboardScancodeToKeycode (fun _ => 0) lshiftHeld 0xee).1 = 0 :=
  claim_C7_control_bytes (fun _ => 0) lshiftHeld 0xee (by decide)

/-- C9: KeyboardSetMouse reports STATUS_SUCCESS for every input and
every hardware environment, i.e. independent of whether the underlying
i8042WriteKeyboardData call succeeded or timed out. -/
theorem claim_C9_setmouse_always_success :
    ∀ (env : PortEnv) (ps : PortState) (enabled : Bool),
      (KeyboardSetMouse env ps enabled).1 = NTSTATUS.STATUS_SUCCESS := by
  intro env ps enabled
  rfl

/-- C8: the lctrl and lalt latches are never consulted: two translator
runs from states that agree on lshift and rshift (but differ arbitrarily
in lctrl and lalt) return the same keycode and agree on the lshift and
rshift fields of the resulting states. -/
theorem claim_C8_ctrl_alt_never_consulted :
    ∀ (scancodes_map : Nat → Nat) (c : Nat) (st1 st2 : KEYBOARD_STATUS),
      st1.lshift = st2.lshift → st1.rshift = st2.rshift →
      (KeyboardScancodeToKeycode scancodes_map st1 c).1 =
        (KeyboardScancodeToKeycode scancodes_map st2 c).1 ∧
      (KeyboardScancodeToKeycode scancodes_map st1 c).2.lshift =
        (KeyboardScancodeToKeycode scancodes_map st2 c).2.lshift ∧
      (KeyboardScancodeToKeycode scancodes_map st1 c).2.rshift =
        (KeyboardScancodeToKeycode scancodes_map st2 c).2.rshift := by
  intro scancodes_map c st1 st2 hls hrs
  obtain ⟨a1, b1, r1, d1⟩ := st1
  obtain ⟨a2, b2, r2, d2⟩ := st2
  simp only at hls hrs
  subst hls hrs
  unfold KeyboardScancodeToKeycode
  by_cases h1 : c &&& 0x7f = 0x1d
  · simp [h1]
  by_cases h2 : c &&& 0x7f = 0x2a
  · simp [h1, h2]
  by_cases h3 : c &&& 0x7f = 0x36
  · simp [h1, h2, h3]
  by_cases h4 : c &&& 0x7f = 0x38
  · simp [h1, h2, h3, h4]
  by_cases hr : IS_SCANCODE_RELEASE c = true
  · simp [h1, h2, h3, h4, hr]
  by_cases hctl : c = 0x00 ∨ c = 0xaa ∨ c = 0xee ∨ c = 0xfa ∨ c = 0xfc ∨
      c = 0xfd ∨ c = 0xfe ∨ c = 0xff
  · simp [h1, h2, h3, h4, hr, hctl]
  by_cases hP : (b1 || r1) = true ∧ 0x2f < scancodes_map c ∧ scancodes_map c < 0x3a
  · simp only [h1, h2, h3, h4, hr, hctl, hP, Bool.not_eq_true, if_false, if_true]
    cases hs : shiftNumber (scancodes_map c) <;> simp [hs] <;> split_ifs <;> simp
  · simp only [h1, h2, h3, h4, hr, hctl, hP, Bool.not_eq_true, if_false]
    split_ifs <;> simp

/-- C8 witness: with a map sending every byte to the letter a, scancode
0x1e translates identically (to A) from two states that share
lshift = true and rshift = false but differ in both lctrl and lalt. -/
theorem claim_C8_witness :
    (KeyboardScancodeToKeycode (fun _ => 0x61)
      (⟨true, true, false, true⟩ : KEYBOARD_STATUS) 0x1e).1 =
      (KeyboardScancodeToKeycode (fun _ => 0x61)
        (⟨false, true, false, false⟩ : KEYBOARD_STATUS) 0x1e).1 ∧
    (KeyboardScancodeToKeycode (fun _ => 0x61)
      (⟨true, true, false, true⟩ : KEYBOARD_STATUS) 0x1e).2.lshift =
      (KeyboardScancodeToKeycode (fun _ => 0x61)
        (⟨false, true, false, false⟩ : KEYBOARD_STATUS) 0x1e).2.lshift ∧
    (KeyboardScancodeToKeycode (fun _ => 0x61)
      (⟨true, true, false, true⟩ : KEYBOARD_STATUS) 0x1e).2.rshift =
      (KeyboardScancodeToKeycode (fun _ => 0x61)
        (⟨false, true, false, false⟩ : KEYBOARD_STATUS) 0x1e).2.rshift :=
  claim_C8_ctrl_alt_never_consulted (fun _ => 0x61) 0x1e
    (⟨true, true, false, true⟩ : KEYBOARD_STATUS)
    (⟨false, true, false, false⟩ : KEYBOARD_STATUS) (by decide) (by decide)

/-- C5 counterexample: byte 0x00 is a non-modifier key-down byte, yet
with left shift latched and a scancode map sending it into the digit row
(to the character 1) the translator returns 0, not the substitute !
(0x21) that the claim requires: the control-byte rule fires first. -/
theorem claim_C5_counterexample :
    (0x00 : Nat) &&& 0x7f ≠ 0x1d ∧ (0x00 : Nat) &&& 0x7f ≠ 0x2a ∧
    (0x00 : Nat) &&& 0x7f ≠ 0x36 ∧ (0x00 : Nat) &&& 0x7f ≠ 0x38 ∧
    IS_SCANCODE_RELEASE 0x00 = false ∧
    lshiftHeld.lshift = true ∧
    zeroToDigitMap 0x00 = 0x31 ∧
    0x2f < zeroToDigitMap 0x00 ∧ zeroToDigitMap 0x00 < 0x3a ∧
    (KeyboardScancodeToKeycode zeroToDigitMap lshiftHeld 0x00).1 = 0 ∧
    (KeyboardScancodeToKeycode zeroToDigitMap lshiftHeld 0x00).1 ≠ 0x21 := by
  decide

/-- C5 (amended): for every non-modifier key-down byte other than the
control byte 0x00, with a shift latch set and the mapped character in
the digit row the translator returns the fixed substitute; else with a
shift latch set and the mapped character a lowercase letter it returns
the uppercase form; otherwise it returns the mapped character unchanged,
the digit rule taking precedence. -/
theorem claim_C5_shift_rules :
    ∀ (scancodes_map : Nat → Nat) (st : KEYBOARD_STATUS) (c : Nat),
      c < 256 →
      IS_SCANCODE_RELEASE c = false →
      ¬(c &&& 0x7f = 0x1d ∨ c &&& 0x7f = 0x2a ∨ c &&& 0x7f = 0x36 ∨ c &&& 0x7f = 0x38) →
      c ≠ 0x00 →
      (((st.lshift || st.rshift) = true ∧ 0x2f < scancodes_map c ∧ scancodes_map c < 0x3a →
          (KeyboardScancodeToKeycode scancodes_map st c).1 =
            shiftedDigitSpec (scancodes_map c)) ∧
       ((st.lshift || st.rshift) = true ∧
          ¬(0x2f < scancodes_map c ∧ scancodes_map c < 0x3a) ∧
          0x60 < scancodes_map c ∧ scancodes_map c < 0x7b →
          (KeyboardScancodeToKeycode scancodes_map st c).1 = scancodes_map c - 0x20) ∧
       (¬((st.lshift || st.rshift) = true ∧ 0x2f < scancodes_map c ∧ scancodes_map c < 0x3a) ∧
        ¬((st.lshift || st.rshift) = true ∧ 0x60 < scancodes_map c ∧ scancodes_map c < 0x7b) →
          (KeyboardScancodeToKeycode scancodes_map st c).1 = scancodes_map c)) := by
  intro scancodes_map st c hlt hrel hmod hzero
  push_neg at hmod
  obtain ⟨h1, h2, h3, h4⟩ := hmod
  have hbit : c &&& 0x80 = 0 := by
    have := hrel
    unfold IS_SCANCODE_RELEASE SCANCODE_RELEASE_FLAG at this
    simpa using this
  have hctl : ¬(c = 0x00 ∨ c = 0xaa ∨ c = 0xee ∨ c = 0xfa ∨ c = 0xfc ∨
      c = 0xfd ∨ c = 0xfe ∨ c = 0xff) := by
    push_neg
    refine ⟨hzero, ?_, ?_, ?_, ?_, ?_, ?_, ?_⟩ <;> rintro rfl <;> simp at hbit
  refine ⟨?_, ?_, ?_⟩
  · rintro ⟨hsh, hlo, hhi⟩
    unfold KeyboardScancodeToKeycode
    simp only [h1, h2, h3, h4, hrel, hctl, if_false, Bool.false_eq_true]
    have hcond : (st.lshift || st.rshift) = true ∧ 0x2f < scancodes_map c ∧
        scancodes_map c < 0x3a := ⟨hsh, hlo, hhi⟩
    simp only [hcond, if_true]
    set m := scancodes_map c with hm
    interval_cases m <;> simp [shiftNumber, shiftedDigitSpec]
  · rintro ⟨hsh, hnd, hlo, hhi⟩
    unfold KeyboardScancodeToKeycode
    simp only [h1, h2, h3, h4, hrel, hctl, if_false, Bool.false_eq_true]
    have hcond : ¬((st.lshift || st.rshift) = true ∧ 0x2f < scancodes_map c ∧
        scancodes_map c < 0x3a) := by
      rintro ⟨_, hd⟩
      exact hnd hd
    have hcond2 : (st.lshift || st.rshift) = true ∧ 0x60 < scancodes_map c ∧
        scancodes_map c < 0x7b := ⟨hsh, hlo, hhi⟩
    simp only [hcond, if_false, hcond2, if_true]
    unfold vmm_toupper
    have hul : 0x61 ≤ scancodes_map c ∧ scancodes_map c ≤ 0x7a := ⟨hlo, by omega⟩
    simp [hnd, hul]
  · rintro ⟨hnd, hnu⟩
    unfold KeyboardScancodeToKeycode
    simp only [h1, h2, h3, h4, hrel, hctl, if_false, Bool.false_eq_true]
    simp only [hnd, if_false, hnu]

/-- C5 witness: with left shift held and a map sending scancode 0x02 to
the character 1 and scancode 0x1e to the letter a, byte 0x02 translates
to ! (0x21) and byte 0x1e to A (0x41); with no shift held, byte 0x02
translates to 1 (0x31). -/
theorem claim_C5_witness :
    (KeyboardScancodeToKeycode
      (fun c => if c = 0x02 then 0x31 else if c = 0x1e then 0x61 else 0)
      lshiftHeld 0x02).1 = 0x21 ∧
    (KeyboardScancodeToKeycode
      (fun c => if c = 0x02 then 0x31 else if c = 0x1e then 0x61 else 0)
      lshiftHeld 0x1e).1 = 0x41 ∧
    (KeyboardScancodeToKeycode
      (fun c => if c = 0x02 then 0x31 else if c = 0x1e then 0x61 else 0)
      keyboard_status_zero_init 0x02).1 = 0x31 := by
  refine ⟨?_, ?_, ?_⟩
  · have h := (claim_C5_shift_rules
      (fun c => if c = 0x02 then 0x31 else if c = 0x1e then 0x61 else 0)
      lshiftHeld 0x02 (by decide) (by decide) (by decide) (by decide)).1
      (by refine ⟨by decide, by norm_num, by norm_num⟩)
    simpa [shiftedDigitSpec] using h
  · have h := (claim_C5_shift_rules
      (fun c => if c = 0x02 then 0x31 else if c = 0x1e then 0x61 else 0)
      lshiftHeld 0x1e (by decide) (by decide) (by decide) (by decide)).2.1
      (by refine ⟨by decide, by norm_num, by norm_num, by norm_num⟩)
    simpa using h
  · have h := (claim_C5_shift_rules
      (fun c => if c = 0x02 then 0x31 else if c = 0x1e then 0x61 else 0)
      keyboard_status_zero_init 0x02 (by decide) (by decide) (by decide) (by decide)).2.2
      (by refine ⟨by decide, by decide⟩)
    simpa using h

/-- C10: byte 0xaa is handled as the left-shift release (base 0x2a): it
clears the left-shift latch and returns 0; the instrumented translator
agrees with the plain one, and every byte with the release bit set
leaves through the modifier or release stage, so the control-byte switch
cases 0xaa-0xff (all of which carry the release bit) are unreachable. -/
theorem claim_C10_aa_is_lshift_release :
    (∀ (scancodes_map : Nat → Nat) (st : KEYBOARD_STATUS),
       KeyboardScancodeToKeycode scancodes_map st 0xaa =
         (0, { st with lshift := false })) ∧
    (∀ (scancodes_map : Nat → Nat) (st : KEYBOARD_STATUS) (c : Nat),
       KeyboardScancodeToKeycode scancodes_map st c =
         ((KeyboardScancodeToKeycodeR scancodes_map st c).1,
          (KeyboardScancodeToKeycodeR scancodes_map st c).2.1)) ∧
    (∀ (scancodes_map : Nat → Nat) (st : KEYBOARD_STATUS) (c : Nat),
       IS_SCANCODE_RELEASE c = true →
       (KeyboardScancodeToKeycodeR scancodes_map st c).2.2 = TransRule.modifier ∨
       (KeyboardScancodeToKeycodeR scancodes_map st c).2.2 = TransRule.releaseIgnore) := by
  refine ⟨fun scancodes_map st => rfl, keycodeR_agrees, ?_⟩
  intro scancodes_map st c hr
  unfold KeyboardScancodeToKeycodeR
  by_cases h1 : c &&& 0x7f = 0x1d
  · simp [h1]
  by_cases h2 : c &&& 0x7f = 0x2a
  · simp [h1, h2]
  by_cases h3 : c &&& 0x7f = 0x36
  · simp [h1, h2, h3]
  by_cases h4 : c &&& 0x7f = 0x38
  · simp [h1, h2, h3, h4]
  simp [h1, h2, h3, h4, hr]

/-- C10 witness: the control byte 0xee (release bit set) leaves the
translator through the release stage, not the control-byte switch. -/
theorem claim_C10_witness :
    (KeyboardScancodeToKeycodeR (fun _ => 0) lshiftHeld 0xee).2.2 =
      TransRule.releaseIgnore := by
  have h := claim_C10_aa_is_lshift_release.2.2 (fun _ => 0) lshiftHeld 0xee (by decide)
  exact h.resolve_left (by decide)

/-! ### Helper lemmas about the hardware loops -/

lemma writeWaitLoop_busy (env : PortEnv)
    (hbusy : ∀ i, KEYB_STATUS_IBUFFER_FULL &&& env.statusAt i ≠ 0) :
    ∀ (n : Nat) (ps : PortState),
      writeWaitLoop env n ps =
        (ULONG_MOD - 1, { ps with sIdx := ps.sIdx + (n + 1) }) := by
  intro n
  induction n with
  | zero =>
    intro ps
    unfold writeWaitLoop
    simp [hbusy ps.sIdx]
  | succ n ih =>
    intro ps
    obtain ⟨s, d, w⟩ := ps
    unfold writeWaitLoop
    simp only [hbusy, if_false]
    rw [ih]
    simp only [Prod.mk.injEq, PortState.mk.injEq, and_true, true_and]
    omega

lemma i8042Read_ok (env : PortEnv) (ps : PortState) (h : attemptOK env ps.sIdx) :
    i8042ReadKeyboardData env ps =
      (some (env.dataAt ps.dIdx,
             env.statusAt ps.sIdx &&& KEYB_STATUS_TRANSMIT_TIMEOUT != 0),
       { ps with sIdx := ps.sIdx + 1, dIdx := ps.dIdx + 1 }) := by
  obtain ⟨h1, h2⟩ := h
  unfold i8042ReadKeyboardData
  simp [h1, h2]

lemma i8042Read_fail (env : PortEnv) (ps : PortState) (h : ¬ attemptOK env ps.sIdx) :
    (i8042ReadKeyboardData env ps).1 = none ∧
    (i8042ReadKeyboardData env ps).2 =
      { ps with sIdx := ps.sIdx + 1,
                dIdx := ps.dIdx +
                  (if env.statusAt ps.sIdx &&& KEYB_STATUS_OBUFFER_FULL ≠ 0
                   then 1 else 0) } := by
  unfold attemptOK at h
  push_neg at h
  unfold i8042ReadKeyboardData
  by_cases h1 : env.statusAt ps.sIdx &&& KEYB_STATUS_OBUFFER_FULL ≠ 0
  · have h2 := h h1
    simp [h1, h2]
  · simp [h1]

lemma readPollLoop_all_fail (env : PortEnv) :
    ∀ (n : Nat) (ps : PortState),
      (∀ k, k < n → ¬ attemptOK env (ps.sIdx + 2 * k + 1)) →
      (readPollLoop env n ps).1 = none ∧ (readPollLoop env n ps).2.2 = 0 := by
  intro n
  induction n with
  | zero =>
    intro ps _
    exact ⟨rfl, rfl⟩
  | succ n ih =>
    intro ps hfail
    have h0 : ¬ attemptOK env (ps.sIdx + 1) := by
      have h := hfail 0 (Nat.succ_pos n)
      simpa using h
    have hf := i8042Read_fail env { ps with sIdx := ps.sIdx + 1 } (by simpa using h0)
    simp only [readPollLoop]
    rw [hf.1, hf.2]
    refine ih _ ?_
    intro k hk
    have h2 := hfail (k + 1) (by omega)
    have harg : ps.sIdx + 2 * (k + 1) + 1 = ps.sIdx + 1 + 1 + (2 * k + 1) := by omega
    rw [harg] at h2
    simpa using h2

lemma readPollLoop_first_success (env : PortEnv) :
    ∀ (k n : Nat) (ps : PortState), k < n →
      attemptOK env (ps.sIdx + 2 * k + 1) →
      (∀ j, j < k → ¬ attemptOK env (ps.sIdx + 2 * j + 1)) →
      (readPollLoop env n ps).1 =
        some (env.dataAt (ps.dIdx + failedDataReads env ps.sIdx k),
              env.statusAt (ps.sIdx + 2 * k + 1) &&& KEYB_STATUS_TRANSMIT_TIMEOUT != 0) ∧
      (readPollLoop env n ps).2.2 = n - k := by
  intro k
  induction k with
  | zero =>
    intro n ps hk hOK _
    obtain ⟨m, rfl⟩ : ∃ m, n = m + 1 := ⟨n - 1, by omega⟩
    have hOK1 : attemptOK env ({ ps with sIdx := ps.sIdx + 1 } : PortState).sIdx := by
      simpa using hOK
    have ho := i8042Read_ok env { ps with sIdx := ps.sIdx + 1 } hOK1
    simp only [readPollLoop]
    rw [ho]
    constructor
    · simp [failedDataReads]
    · simp
  | succ k ih =>
    intro n ps hk hOK hmin
    obtain ⟨m, rfl⟩ : ∃ m, n = m + 1 := ⟨n - 1, by omega⟩
    have h0 : ¬ attemptOK env (ps.sIdx + 1) := by
      have h := hmin 0 (Nat.succ_pos k)
      simpa using h
    have hf := i8042Read_fail env { ps with sIdx := ps.sIdx + 1 } (by simpa using h0)
    simp only [readPollLoop]
    rw [hf.1, hf.2]
    dsimp only
    rw [show ps.sIdx + 1 + 1 = ps.sIdx + 2 from by omega]
    have hOK' : attemptOK env
        ((⟨ps.sIdx + 2,
           ps.dIdx + (if env.statusAt (ps.sIdx + 1) &&& KEYB_STATUS_OBUFFER_FULL ≠ 0 then 1 else 0),
           ps.writes⟩ : PortState).sIdx + 2 * k + 1) := by
      dsimp only
      have harg : ps.sIdx + 2 * (k + 1) + 1 = ps.sIdx + 2 + 2 * k + 1 := by omega
      rw [harg] at hOK
      exact hOK
    have hmin' : ∀ j, j < k → ¬ attemptOK env
        ((⟨ps.sIdx + 2,
           ps.dIdx + (if env.statusAt (ps.sIdx + 1) &&& KEYB_STATUS_OBUFFER_FULL ≠ 0 then 1 else 0),
           ps.writes⟩ : PortState).sIdx + 2 * j + 1) := by
      intro j hj
      dsimp only
      have h2 := hmin (j + 1) (by omega)
      have harg : ps.sIdx + 2 * (j + 1) + 1 = ps.sIdx + 2 + 2 * j + 1 := by omega
      rw [harg] at h2
      exact h2
    have h := ih m _ (by omega) hOK' hmin'
    refine ⟨?_, ?_⟩
    · rw [h.1]
      dsimp only
      have e2 : ps.sIdx + 2 + 2 * k + 1 = ps.sIdx + 2 * (k + 1) + 1 := by omega
      rw [e2]
      simp only [failedDataReads]
      simp only [Nat.add_assoc]
    · rw [h.2]
      omega

lemma readPollLoop_counter_zero (env : PortEnv) :
    ∀ (n : Nat) (ps : PortState),
      (readPollLoop env n ps).2.2 = 0 → (readPollLoop env n ps).1 = none := by
  intro n
  induction n with
  | zero =>
    intro ps _
    rfl
  | succ n ih =>
    intro ps h
    simp only [readPollLoop] at h ⊢
    cases hr : (i8042ReadKeyboardData env { ps with sIdx := ps.sIdx + 1 }).1 with
    | none =>
      rw [hr] at h
      exact ih _ h
    | some v =>
      rw [hr] at h
      exact absurd h (Nat.succ_ne_zero n)

lemma KeyboardReadKeystroke_fst_none_iff (env : PortEnv) (ps : PortState) (unget : Bool) :
    (KeyboardReadKeystroke env ps unget).1 = none ↔
      (readPollLoop env POLL_STATUS_ITERATIONS ps).1 = none := by
  have hz := readPollLoop_counter_zero env POLL_STATUS_ITERATIONS ps
  unfold KeyboardReadKeystroke
  rcases hr : readPollLoop env POLL_STATUS_ITERATIONS ps with ⟨r1, ps1, cnt⟩
  rw [hr] at hz
  by_cases hc : cnt = 0
  · subst hc
    have h1 : r1 = none := hz rfl
    subst h1
    simp
  · cases r1 with
    | none => simp [hc]
    | some v =>
      obtain ⟨sc, mf⟩ := v
      simp [hc]

lemma KeyboardReadKeystroke_fst_some (env : PortEnv) (ps : PortState) (unget : Bool)
    (v : Nat × Bool)
    (h : (readPollLoop env POLL_STATUS_ITERATIONS ps).1 = some v) :
    (KeyboardReadKeystroke env ps unget).1 = some v := by
  have hz := readPollLoop_counter_zero env POLL_STATUS_ITERATIONS ps
  unfold KeyboardReadKeystroke
  rcases hr : readPollLoop env POLL_STATUS_ITERATIONS ps with ⟨r1, ps1, cnt⟩
  rw [hr] at hz h
  simp only at h
  subst h
  have hc : cnt ≠ 0 := by
    intro h0
    have := hz h0
    simp at this
  obtain ⟨sc, mf⟩ := v
  simp [hc]

/-! ### Claim theorems about the hardware loops -/

/-- C1 (code bug): in an environment where the input-buffer-full bit
never clears, i8042WriteKeyboardData exhausts its 12000-iteration budget
but then PERFORMS the write and returns TRUE: the post-decremented ULONG
counter wraps to 2^32 - 1, so the `if (counter)` timeout test never
fails.  The claim (and the spec) say it must return failure without
writing. -/
theorem claim_C1_write_after_timeout :
    i8042WriteKeyboardData alwaysBusyEnv PortState.init KEYB_REGISTER_COMMAND
        KEYB_COMMAND_ENABLE_MOUSE =
      (true, { sIdx := 12001, dIdx := 0,
               writes := [(KEYB_REGISTER_COMMAND, KEYB_COMMAND_ENABLE_MOUSE)] }) := by
  have hbusy : ∀ i, KEYB_STATUS_IBUFFER_FULL &&& alwaysBusyEnv.statusAt i ≠ 0 := by
    intro i
    show (2 : Nat) &&& 2 ≠ 0
    decide
  have h := writeWaitLoop_busy alwaysBusyEnv hbusy POLL_STATUS_ITERATIONS PortState.init
  unfold i8042WriteKeyboardData
  rw [h]
  norm_num [ULONG_MOD, PortState.init, POLL_STATUS_ITERATIONS]

/-- C6: KeyboardReadKeystroke returns the timeout failure if and only if
no hardware read attempt within the 12000 polling passes succeeds
(output-buffer-full set with parity clear); and if the first successful
attempt is pass k, it stops there (final counter 12000 - k) and returns
the data byte read by that pass together with its mouse flag (the
transmit-timeout status bit). -/
theorem claim_C6_poll_timeout_iff :
    ∀ (env : PortEnv) (ps : PortState) (unget : Bool),
      ((KeyboardReadKeystroke env ps unget).1 = none ↔
        ∀ k, k < POLL_STATUS_ITERATIONS → ¬ attemptOK env (ps.sIdx + 2 * k + 1)) ∧
      (∀ k, k < POLL_STATUS_ITERATIONS → attemptOK env (ps.sIdx + 2 * k + 1) →
        (∀ j, j < k → ¬ attemptOK env (ps.sIdx + 2 * j + 1)) →
        (KeyboardReadKeystroke env ps unget).1 =
          some (env.dataAt (ps.dIdx + failedDataReads env ps.sIdx k),
                env.statusAt (ps.sIdx + 2 * k + 1) &&& KEYB_STATUS_TRANSMIT_TIMEOUT != 0) ∧
        (readPollLoop env POLL_STATUS_ITERATIONS ps).2.2 = POLL_STATUS_ITERATIONS - k) := by
  intro env ps unget
  have hsucc : ∀ k, k < POLL_STATUS_ITERATIONS → attemptOK env (ps.sIdx + 2 * k + 1) →
      (∀ j, j < k → ¬ attemptOK env (ps.sIdx + 2 * j + 1)) →
      (KeyboardReadKeystroke env ps unget).1 =
        some (env.dataAt (ps.dIdx + failedDataReads env ps.sIdx k),
              env.statusAt (ps.sIdx + 2 * k + 1) &&& KEYB_STATUS_TRANSMIT_TIMEOUT != 0) ∧
      (readPollLoop env POLL_STATUS_ITERATIONS ps).2.2 = POLL_STATUS_ITERATIONS - k := by
    intro k hk hOK hmin
    have h := readPollLoop_first_success env k POLL_STATUS_ITERATIONS ps hk hOK hmin
    exact ⟨KeyboardReadKeystroke_fst_some env ps unget _ h.1, h.2⟩
  refine ⟨⟨?_, ?_⟩, hsucc⟩
  · intro hnone k hk
    by_contra hOK
    have hex : ∃ j, attemptOK env (ps.sIdx + 2 * j + 1) := ⟨k, hOK⟩
    have hj0 := Nat.find_spec hex
    have hj0le : Nat.find hex ≤ k := Nat.find_le hOK
    have hmin : ∀ j, j < Nat.find hex → ¬ attemptOK env (ps.sIdx + 2 * j + 1) :=
      fun j hj => Nat.find_min hex hj
    have h := hsucc (Nat.find hex) (by omega) hj0 hmin
    rw [h.1] at hnone
    simp at hnone
  · intro hall
    rw [KeyboardReadKeystroke_fst_none_iff]
    exact (readPollLoop_all_fail env POLL_STATUS_ITERATIONS ps hall).1

/-- C6 witness: in an environment where the very first attempt succeeds
with data byte 0x1c and mouse bit clear, KeyboardReadKeystroke returns
success with exactly that byte and flag. -/
theorem claim_C6_witness :
    (KeyboardReadKeystroke pollReadyEnv PortState.init false).1 = some (0x1c, false) := by
  have h := ((claim_C6_poll_timeout_iff pollReadyEnv PortState.init false).2 0
    (by norm_num [POLL_STATUS_ITERATIONS]) (by decide)
    (fun j hj => absurd hj (by omega))).1
  simpa [pollReadyEnv, PortState.init, failedDataReads] using h

end HyperDbgKeyboard
